import Mathlib

/-!
Shallow embedding of `src/function.py` of the aws-log-ingestion repository:
a Lambda that classifies incoming log entries, wraps them in an envelope,
splits oversized envelopes recursively, and POSTs the compressed payloads
to an ingest service with a retrying HTTP transport.

Modelling conventions:
* machine effects (`time.sleep`, `print`) are recorded as explicit traces;
* Python exceptions are `Except`/error values; an exception type that the
  repository never catches is a `PyErr` constructor;
* `gzip.compress(json.dumps(data).encode())` is an opaque serialization
  parameter `ser : Data → P` together with a byte-length `plen : P → Nat`
  (the source treats compression/encoding as black-box utilities);
* unbounded recursion (`_generate_payloads`) is given explicit fuel:
  `none` means the recursion did not finish within the fuel, so a run that
  returns `none` for every fuel diverges.
-/

namespace AwsLogIngestion

/-- Constant `MAX_RETRIES = 3` from function.py. -/
def MAX_RETRIES : Nat := 3

/-- Constant `INITIAL_BACKOFF = 1` (seconds) from function.py. -/
def INITIAL_BACKOFF : Nat := 1

/-- Constant `BACKOFF_MULTIPLIER = 2` from function.py. -/
def BACKOFF_MULTIPLIER : Nat := 2

/-- Constant `MAX_PAYLOAD_SIZE = 1000 * 1024` from function.py. -/
def MAX_PAYLOAD_SIZE : Nat := 1000 * 1024

/-- Constant `INGEST_SERVICE_VERSION = 'v1'`. -/
def INGEST_SERVICE_VERSION : String := "v1"

/-- Constant `US_INGEST_SERVICE_HOST`. -/
def US_INGEST_SERVICE_HOST : String := "https://cloud-collector.newrelic.com"

/-- Constant `EU_INGEST_SERVICE_HOST`. -/
def EU_INGEST_SERVICE_HOST : String := "https://cloud-collector.eu.newrelic.com"

/-- The `EntryType` enum of function.py. -/
inductive EntryType : Type where
  | vpc
  | lambda
  | other
deriving DecidableEq

/-- The `INGEST_SERVICE_PATHS` dictionary of function.py. -/
def INGEST_SERVICE_PATHS : EntryType → String
  | .lambda => "/aws/lambda"
  | .vpc => "/aws/vpc"
  | .other => "/aws"

/-- Python exception classes that can escape the code we model.
`BadRequestException` and `MaxRetriesException` appear as transport results
below; the constructors here are the exceptions the repository itself never
catches at the point where they can be raised. -/
inductive PyErr : Type where
  | jsonDecodeError
  | keyError
  | indexError
  | maxRetriesException
  | throttlingException
deriving DecidableEq

/-- Outcome of one call of the function decorated by `http_retryable`
(`func()` performs one HTTP request): it either returns a response (urllib
only returns on non-error statuses), raises `request.HTTPError` with a
status code, or raises `request.URLError`. -/
inductive Outcome (Resp : Type) : Type where
  | success (resp : Resp)
  | httpError (code : Nat)
  | urlError
deriving DecidableEq

/-- Result of running `wrapper_func`: the returned response or the raised
exception. -/
inductive SendResult (Resp : Type) : Type where
  | ok (resp : Resp)
  | badRequest
  | throttling
  | maxRetries
deriving DecidableEq

/-- An outcome on which the `while` loop of `wrapper_func` continues
(attempt consumed, then retried): a `URLError`, or an `HTTPError` whose code
falls through every branch of the `if` chain (i.e. not in `[400, 500)`). -/
def retryable {Resp : Type} : Outcome Resp → Prop
  | .success _ => False
  | .httpError code => ¬ (400 ≤ code ∧ code < 500)
  | .urlError => True

/-- The `while retries < MAX_RETRIES` loop of `wrapper_func` in
`http_retryable`, run with `rem = MAX_RETRIES - retries` iterations left.
`f k` is the outcome of the `(k+1)`-th call of the decorated function.
Returns the trace `(sleep durations, number of attempts, result)`:
`time.sleep(backoff)` calls are recorded in order, and each entered loop
body counts one attempt (`retries += 1` then `func()`). -/
def wrapper_go {Resp : Type} (f : Nat → Outcome Resp) :
    Nat → Nat → Nat → List Nat × Nat × SendResult Resp
  | 0, _, _ => ([], 0, .maxRetries)
  | rem + 1, backoff, retries =>
    -- `if retries > 0: time.sleep(backoff); backoff *= BACKOFF_MULTIPLIER`
    let sleeps : List Nat := if 0 < retries then [backoff] else []
    let backoff2 : Nat :=
      if 0 < retries then backoff * BACKOFF_MULTIPLIER else backoff
    match f retries with
    | .success resp => (sleeps, 1, .ok resp)
    | .httpError code =>
      if code = 400 then (sleeps, 1, .badRequest)
      else if code = 403 then (sleeps, 1, .badRequest)
      else if code = 404 then (sleeps, 1, .badRequest)
      else if code = 429 then (sleeps, 1, .throttling)
      else if 400 ≤ code ∧ code < 500 then (sleeps, 1, .badRequest)
      else
        -- non-4xx HTTPError: the except block raises nothing, loop continues
        let t := wrapper_go f rem backoff2 (retries + 1)
        (sleeps ++ t.1, t.2.1 + 1, t.2.2)
    | .urlError =>
      -- `except request.URLError`: print and continue the loop
      let t := wrapper_go f rem backoff2 (retries + 1)
      (sleeps ++ t.1, t.2.1 + 1, t.2.2)

/-- Function `wrapper_func` of `http_retryable`: starts with
`backoff = INITIAL_BACKOFF`, `retries = 0`, and the loop bound
`MAX_RETRIES`; falling out of the loop raises `MaxRetriesException`. -/
def wrapper_func {Resp : Type} (f : Nat → Outcome Resp) :
    List Nat × Nat × SendResult Resp :=
  wrapper_go f MAX_RETRIES INITIAL_BACKOFF 0

/-- The backoff sequence `INITIAL_BACKOFF * BACKOFF_MULTIPLIER ^ i` slept
before attempts `2 .. n+1`. -/
def backoffSeq (n : Nat) : List Nat :=
  (List.range n).map fun i => INITIAL_BACKOFF * BACKOFF_MULTIPLIER ^ i

/-- The dictionary `json.loads(data['entry'])` yields in `_split` when the
entry string is a JSON object with a `logEvents` list: the list itself plus
the remaining fields `rest` (which splitting copies unchanged). `Ev` is the
type of one JSON log event, `R` the type of the other fields. -/
structure Entry (Ev R : Type) : Type where
  logEvents : List Ev
  rest : R
deriving DecidableEq

/-- The possible shapes of the string `data['entry']`, as far as `_split`
can observe them: it either `json.loads`-parses to an object carrying a
`logEvents` list, parses to JSON without a `logEvents` key, or fails to
parse at all. -/
inductive EntryStr (Ev R : Type) : Type where
  | parsed (e : Entry Ev R)
  | objNoEvents (r : R)
  | invalid (s : String)
deriving DecidableEq

/-- The dict `{'context': ..., 'entry': ...}` built by `_send_log_entry`
and rebuilt by `_reconstruct_data`. `Ctx` abstracts the invocation-context
sub-dict (copied verbatim everywhere). -/
structure Data (Ctx Ev R : Type) : Type where
  context : Ctx
  entry : EntryStr Ev R
deriving DecidableEq

/-- Function `_reconstruct_data(context, entry, logEvents)` of function.py.  The
source mutates the shared parsed `entry` dict in place
(`entry['logEvents'] = logEvents`) and immediately serializes it
(`json.dumps(entry)`); the mutation is modelled by returning the updated
dict alongside the rebuilt data, to be threaded to the next call. -/
def _reconstruct_data {Ctx Ev R : Type} (context : Ctx) (entry : Entry Ev R)
    (logEvents : List Ev) : Entry Ev R × Data Ctx Ev R :=
  let entry2 : Entry Ev R := { entry with logEvents := logEvents }
  (entry2, { context := context, entry := .parsed entry2 })

/-- Function `_split(data)` of function.py.  Here `json.loads(data['entry'])` raises
`json.JSONDecodeError` on a non-JSON string; `entry['logEvents']` raises
`KeyError` when the parsed object has no such key; otherwise the event list
is halved with floor division and the two `_reconstruct_data` calls are
evaluated left to right, threading the in-place mutation of `entry`. -/
def _split {Ctx Ev R : Type} (data : Data Ctx Ev R) :
    Except PyErr (Data Ctx Ev R × Data Ctx Ev R) :=
  let context := data.context
  match data.entry with
  | .invalid _ => .error .jsonDecodeError
  | .objNoEvents _ => .error .keyError
  | .parsed entry =>
    let logEvents := entry.logEvents
    let half := logEvents.length / 2
    let r1 := _reconstruct_data context entry (logEvents.take half)
    let r2 := _reconstruct_data context r1.1 (logEvents.drop half)
    .ok (r1.2, r2.2)

/-- Function `_generate_payloads(data)` of function.py, with explicit fuel for its
unbounded recursion (`none` = not finished within `fuel`).
`ser data` stands for `gzip.compress(json.dumps(data).encode())` and
`plen` for `len` on the compressed bytes.  The two recursive calls of
`_generate_payloads(split_data[0]) + _generate_payloads(split_data[1])`
are evaluated left to right: an exception or divergence on the left half
preempts the right half. -/
def _generate_payloads {Ctx Ev R P : Type} (ser : Data Ctx Ev R → P)
    (plen : P → Nat) : Nat → Data Ctx Ev R → Option (Except PyErr (List P))
  | 0, _ => none
  | fuel + 1, data =>
    let payload := ser data
    if plen payload < MAX_PAYLOAD_SIZE then
      some (.ok [payload])
    else
      match _split data with
      | .error e => some (.error e)
      | .ok (d1, d2) =>
        match _generate_payloads ser plen fuel d1 with
        | none => none
        | some (.error e) => some (.error e)
        | some (.ok ps1) =>
          match _generate_payloads ser plen fuel d2 with
          | none => none
          | some (.error e) => some (.error e)
          | some (.ok ps2) => some (.ok (ps1 ++ ps2))

/-- The `logEvents` a data dict carries (empty when the entry string is not
parsed JSON with a `logEvents` list). -/
def dataEvents {Ctx Ev R : Type} (d : Data Ctx Ev R) : List Ev :=
  match d.entry with
  | .parsed e => e.logEvents
  | _ => []

/-- A data dict on which `_generate_payloads` never finishes, whatever the
fuel: the Python recursion neither returns nor raises on it. -/
def divergesOn {Ctx Ev R P : Type} (ser : Data Ctx Ev R → P)
    (plen : P → Nat) (d : Data Ctx Ev R) : Prop :=
  ∀ fuel : Nat, _generate_payloads ser plen fuel d = none

/-- Observable outcome of one `_send_payload` call that returns normally:
either the payload was delivered (`print('Log entry sent...')`) or a
`BadRequestException` was caught and printed, dropping that payload. -/
inductive PayloadOutcome : Type where
  | sent
  | droppedBadRequest
deriving DecidableEq

/-- Function `_send_payload(entry_type, payload)` of function.py, with the retrying
transport for this payload abstracted into `send` (the result of the
`http_retryable`-wrapped `do_request`).  The source catches
`MaxRetriesException` (prints, then `raise e`) and `BadRequestException`
(prints and returns); a `ThrottlingException` is caught by neither handler
and escapes. -/
def _send_payload {P Resp : Type} (send : P → SendResult Resp) (payload : P) :
    Except PyErr PayloadOutcome :=
  match send payload with
  | .ok _ => .ok .sent
  | .badRequest => .ok .droppedBadRequest
  | .maxRetries => .error .maxRetriesException
  | .throttling => .error .throttlingException

/-- The `for payload in _generate_payloads(data): _send_payload(...)` loop
of `_send_log_entry`: payloads are sent in order; the first exception that
`_send_payload` lets escape aborts the remaining payloads. -/
def sendPayloads {P Resp : Type} (send : P → SendResult Resp) :
    List P → Except PyErr (List PayloadOutcome)
  | [] => .ok []
  | p :: ps =>
    match _send_payload send p with
    | .error e => .error e
    | .ok o =>
      match sendPayloads send ps with
      | .error e => .error e
      | .ok os => .ok (o :: os)

/-- The payload-delivery part of `_send_log_entry(log_entry, context)`:
`_generate_payloads(data)` is fully evaluated first (it returns a list, so
any exception it raises escapes before anything is sent), then each payload
goes through `_send_payload`.  `send` abstracts one transport run per
payload; the `entry_type` argument of `_send_payload` only selects the
destination URL and is dropped here. -/
def _send_log_entry {Ctx Ev R P Resp : Type} (ser : Data Ctx Ev R → P)
    (plen : P → Nat) (send : P → SendResult Resp) (fuel : Nat)
    (data : Data Ctx Ev R) : Option (Except PyErr (List PayloadOutcome)) :=
  match _generate_payloads ser plen fuel data with
  | none => none
  | some (.error e) => some (.error e)
  | some (.ok payloads) => some (sendPayloads send payloads)

/-- Marker `'"logGroup":"/aws/vpc/flow-logs"'` from `_get_entry_type`. -/
def VPC_MARKER : String := "\"logGroup\":\"/aws/vpc/flow-logs\""

/-- Marker `'"logGroup":"/aws/lambda/'` from `_get_entry_type`. -/
def LAMBDA_GROUP_MARKER : String := "\"logGroup\":\"/aws/lambda/"

/-- Marker `',\\"NR_LAMBDA_MONITORING\\",'` from `_get_entry_type` (the Python
literal denotes the text `,\"NR_LAMBDA_MONITORING\",`). -/
def NR_MONITORING_MARKER : String := ",\\\"NR_LAMBDA_MONITORING\\\","

/-- Function `_get_entry_type(log_entry)` of function.py: Python's `in` on strings
is substring containment. -/
def _get_entry_type (log_entry : String) : EntryType :=
  if log_entry.containsSubstr VPC_MARKER.toSubstring then .vpc
  else if log_entry.containsSubstr LAMBDA_GROUP_MARKER.toSubstring &&
      log_entry.containsSubstr NR_MONITORING_MARKER.toSubstring then .lambda
  else .other

/-- The part of a record of `event['Records']` that `_get_log_type` and
`lambda_handler` look at: whether it has an `'s3'` key, and its
`'eventName'` value when that key is present. -/
structure S3Record : Type where
  s3 : Bool
  eventName : Option String
deriving DecidableEq

/-- The part of the trigger `event` dict that `_get_log_type` looks at:
whether `'awslogs'` is a key, and the value of `'Records'` when that key is
present. -/
structure TriggerEvent : Type where
  awslogs : Bool
  records : Option (List S3Record)
deriving DecidableEq

/-- Function `_get_log_type(event)` of function.py.  The `elif` condition
`'Records' in event and 's3' in event['Records'][0] and 'ObjectCreated' in
event['Records'][0]['eventName']` short-circuits left to right:
`event['Records'][0]` raises `IndexError` on an empty list, and
`...['eventName']` raises `KeyError` when the key is missing. -/
def _get_log_type (event : TriggerEvent) : Except PyErr String :=
  if event.awslogs then .ok "cw_logs"
  else
    match event.records with
    | none => .ok "unknown"
    | some [] => .error .indexError
    | some (record :: _) =>
      if record.s3 then
        match record.eventName with
        | none => .error .keyError
        | some name =>
          if name.containsSubstr "ObjectCreated".toSubstring then .ok "s3"
          else .ok "unknown"
      else .ok "unknown"

/-- What `lambda_handler` goes on to do after `_get_log_type`. -/
inductive HandlerAction : Type where
  | sentCwLogs
  | sentS3Lines
  | notSupported
deriving DecidableEq

/-- Function `lambda_handler(event, context)` of function.py, with the downstream
effects of each branch (base64/gzip decoding, S3 fetch, `_send_log_entry`)
abstracted into action tags: the claim-relevant behaviour is which branch
runs, and that an exception raised by `_get_log_type` propagates out of the
handler before any branch is taken. -/
def lambda_handler (event : TriggerEvent) : Except PyErr HandlerAction :=
  match _get_log_type event with
  | .error e => .error e
  | .ok log_type =>
    if log_type = "cw_logs" then .ok .sentCwLogs
    else if log_type = "s3" then .ok .sentS3Lines
    else .ok .notSupported

/-- The configuration surface read through `os.getenv`: the `LICENSE_KEY`
and `NR_REGION` environment variables. -/
structure Env : Type where
  LICENSE_KEY : Option String
  NR_REGION : Option String
deriving DecidableEq

/-- Function `_get_license_key()` of function.py.  The source returns a hard-coded
string literal and reads no configuration (the literal is even missing its
closing quote, a Python `SyntaxError`; the constant below is the evident
reading of the line). -/
def _get_license_key : String := "f7462ab48bc1fee992a5ab87c707a21b6b1ab893"

/-- Function `_get_ingest_service_host()` of function.py: region from `NR_REGION`,
defaulting to a region inferred from the `LICENSE_KEY` prefix. -/
def _get_ingest_service_host (env : Env) : String :=
  let license := env.LICENSE_KEY.getD ""
  let license_region := if license.startsWith "eu" then "EU" else "US"
  let env_ingest_region := env.NR_REGION.getD license_region
  if env_ingest_region = "US" then US_INGEST_SERVICE_HOST
  else if env_ingest_region = "EU" then EU_INGEST_SERVICE_HOST
  else env_ingest_region

/-- Function `_get_ingest_service_url(entity_type)` of function.py. -/
def _get_ingest_service_url (env : Env) (entity_type : EntryType) : String :=
  _get_ingest_service_host env ++ INGEST_SERVICE_PATHS entity_type
    ++ "/" ++ INGEST_SERVICE_VERSION

/-- The `request.Request` built by `do_request` inside `_send_payload`:
URL, payload body, and the headers added by the two `add_header` calls. -/
structure HttpRequest (P : Type) : Type where
  url : String
  body : P
  headers : List (String × String)
deriving DecidableEq

/-- The request constructed by `do_request` in `_send_payload` before
`request.urlopen` is called. -/
def do_request {P : Type} (env : Env) (entry_type : EntryType)
    (payload : P) : HttpRequest P :=
  { url := _get_ingest_service_url env entry_type
    body := payload
    headers := [("X-License-Key", _get_license_key),
                ("Content-Encoding", "gzip")] }

/-! Concrete instances used to evaluate the model on closed inputs
(contexts, events and rest-fields are drawn from `Nat`; a serialized
payload is represented by its byte count). -/

/-- A concrete compressed-size oracle: about 700 KB per log event plus a
constant envelope overhead, so one event fits under `MAX_PAYLOAD_SIZE` but
two do not. -/
def sizeEx : Data Nat Nat Nat → Nat
  | { entry := .parsed e, .. } => 700000 * e.logEvents.length + 10
  | _ => 10

/-- A concrete compressed-size oracle under which a single log event still
compresses above `MAX_PAYLOAD_SIZE` (while the empty envelope fits). -/
def sizeBig : Data Nat Nat Nat → Nat
  | { entry := .parsed e, .. } => if e.logEvents.isEmpty then 10 else 2000000
  | _ => 10

/-- A size oracle under which every serialization is oversized. -/
def sizeHuge : Data Nat Nat Nat → Nat := fun _ => 2000000

/-- Envelope with two log events (oversized under `sizeEx`). -/
def dTwoEv : Data Nat Nat Nat := { context := 0, entry := .parsed ⟨[1, 2], 0⟩ }

/-- Envelope with one log event (fits under `sizeEx`, oversized under
`sizeBig`). -/
def dOneEv : Data Nat Nat Nat := { context := 0, entry := .parsed ⟨[1], 0⟩ }

/-- Envelope whose entry string is not JSON. -/
def dRawEv : Data Nat Nat Nat := { context := 0, entry := .invalid "plain text line" }

/-- Envelope whose entry parses as JSON but has no `logEvents` key. -/
def dNoEv : Data Nat Nat Nat := { context := 0, entry := .objNoEvents 7 }

/-- Transport oracle: every attempt fails at network level. -/
def fAllUrlErr : Nat → Outcome Nat := fun _ => .urlError

/-- Transport oracle: two network failures, then a 200 response. -/
def fThirdOk : Nat → Outcome Nat := fun n => if n < 2 then .urlError else .success 200

/-- Transport oracle: a 503 first, then a 403 on the second attempt. -/
def fThen403 : Nat → Outcome Nat := fun n => if n = 0 then .httpError 503 else .httpError 403

/-- Transport oracle: 429 on the first attempt. -/
def fFirst429 : Nat → Outcome Nat := fun _ => .httpError 429

/-- Per-payload transport result: payload `1` is rejected as a bad
request, everything else is delivered. -/
def sendBad1 : Nat → SendResult Nat := fun p => if p = 1 then .badRequest else .ok 200

/-- Per-payload transport result: every payload exhausts its retries. -/
def sendExhaust : Nat → SendResult Nat := fun _ => .maxRetries

/-- Per-payload transport result: every payload is delivered. -/
def sendOk : Nat → SendResult Nat := fun _ => .ok 200

/-- Trigger event with no `awslogs` key and `Records` mapped to `[]`. -/
def evEmptyRecords : TriggerEvent := { awslogs := false, records := some ([] : List S3Record) }

/-- Environment with an explicitly configured license key and region. -/
def envConfigured : Env :=
  { LICENSE_KEY := some "configured-account-license-key", NR_REGION := some "US" }

/-- A `_send_log_entry` run completed normally when every exception raised
along the way (in particular any `BadRequestException`) was caught and
reported inside `_send_payload`, so that no exception escapes the
dispatcher. -/
def completedNormally : Option (Except PyErr (List PayloadOutcome)) → Prop
  | some (.ok _) => True
  | _ => False

/-! ## Helper lemmas about the retry loop -/

/-- One loop iteration on a retryable outcome: one attempt is consumed, the
backoff (if any) is slept, and the loop continues with doubled backoff. -/
theorem wrapper_go_step_retry {Resp : Type} {f : Nat → Outcome Resp} {k : Nat}
    (h : retryable (f k)) (rem b : Nat) :
    wrapper_go f (rem + 1) b k =
      ((if 0 < k then [b] else []) ++
          (wrapper_go f rem (if 0 < k then b * BACKOFF_MULTIPLIER else b) (k + 1)).1,
        (wrapper_go f rem (if 0 < k then b * BACKOFF_MULTIPLIER else b) (k + 1)).2.1 + 1,
        (wrapper_go f rem (if 0 < k then b * BACKOFF_MULTIPLIER else b) (k + 1)).2.2) := by
  rcases hf : f k with r | c | _
  · rw [hf] at h; exact absurd h (by simp [retryable])
  · rw [hf] at h
    have hc : ¬ (400 ≤ c ∧ c < 500) := h
    simp only [wrapper_go, hf]
    rw [if_neg (by omega), if_neg (by omega), if_neg (by omega), if_neg (by omega),
      if_neg hc]
  · simp only [wrapper_go, hf]

/-- One loop iteration on a returned response: the loop returns it. -/
theorem wrapper_go_step_success {Resp : Type} {f : Nat → Outcome Resp} {k : Nat}
    {r : Resp} (hf : f k = .success r) (rem b : Nat) :
    wrapper_go f (rem + 1) b k = (if 0 < k then [b] else [], 1, .ok r) := by
  simp only [wrapper_go, hf]

/-- One loop iteration on a 4xx response other than 429:
`BadRequestException` is raised at once. -/
theorem wrapper_go_step_fatal {Resp : Type} {f : Nat → Outcome Resp} {k c : Nat}
    (hf : f k = .httpError c) (h4 : 400 ≤ c) (h5 : c < 500) (h9 : c ≠ 429)
    (rem b : Nat) :
    wrapper_go f (rem + 1) b k = (if 0 < k then [b] else [], 1, .badRequest) := by
  simp only [wrapper_go, hf]
  split_ifs <;> first | rfl | (exfalso; omega)

/-- One loop iteration on a 429 response: `ThrottlingException` is raised
at once. -/
theorem wrapper_go_step_throttle {Resp : Type} {f : Nat → Outcome Resp} {k : Nat}
    (hf : f k = .httpError 429) (rem b : Nat) :
    wrapper_go f (rem + 1) b k = (if 0 < k then [b] else [], 1, .throttling) := by
  simp [wrapper_go, hf]

/-- C2: a run of `http_retryable`'s `wrapper_func` in which every attempt
fails with a retryable failure makes exactly `MAX_RETRIES = 3` attempts,
sleeps `INITIAL_BACKOFF * BACKOFF_MULTIPLIER ^ (n-1)` before attempts
2 and 3 (i.e. 1 then 2 seconds), and then raises `MaxRetriesException`;
a run whose `k`-th attempt succeeds (`1 ≤ k ≤ MAX_RETRIES`) makes exactly
`k` attempts with sleeps `1, 2, ...` before attempts `2 .. k`. -/
theorem retry_schedule {Resp : Type} (f : Nat → Outcome Resp) :
    ((∀ n, n < MAX_RETRIES → retryable (f n)) →
      wrapper_func f = (backoffSeq (MAX_RETRIES - 1), MAX_RETRIES, .maxRetries) ∧
      backoffSeq (MAX_RETRIES - 1) =
        [INITIAL_BACKOFF, INITIAL_BACKOFF * BACKOFF_MULTIPLIER]) ∧
    (∀ k r, 1 ≤ k → k ≤ MAX_RETRIES → (∀ n, n < k - 1 → retryable (f n)) →
      f (k - 1) = .success r →
      wrapper_func f = (backoffSeq (k - 1), k, .ok r)) := by
  constructor
  · intro h
    refine ⟨?_, by decide⟩
    have h0 := h 0 (by decide)
    have h1 := h 1 (by decide)
    have h2 := h 2 (by decide)
    have e2 : wrapper_go f 1 2 2 = ([2], 1, (SendResult.maxRetries : SendResult Resp)) := by
      simpa [wrapper_go] using wrapper_go_step_retry h2 0 2
    have e1 : wrapper_go f 2 1 1 = ([1, 2], 2, (SendResult.maxRetries : SendResult Resp)) := by
      simpa [e2, BACKOFF_MULTIPLIER] using wrapper_go_step_retry h1 1 1
    have e0 : wrapper_go f 3 1 0 = ([1, 2], 3, (SendResult.maxRetries : SendResult Resp)) := by
      simpa [e1] using wrapper_go_step_retry h0 2 1
    exact e0
  · intro k r hk1 hk3 hpre hs
    have hk3' : k ≤ 3 := hk3
    interval_cases k
    · exact (by simpa using wrapper_go_step_success hs 2 1 :
        wrapper_go f 3 1 0 = ([], 1, .ok r))
    · have h0 := hpre 0 (by decide)
      have e1 : wrapper_go f 2 1 1 = ([1], 1, SendResult.ok r) := by
        simpa using wrapper_go_step_success hs 1 1
      have e0 : wrapper_go f 3 1 0 = ([1], 2, SendResult.ok r) := by
        simpa [e1] using wrapper_go_step_retry h0 2 1
      exact e0
    · have h0 := hpre 0 (by decide)
      have h1 := hpre 1 (by decide)
      have e2 : wrapper_go f 1 2 2 = ([2], 1, SendResult.ok r) := by
        simpa using wrapper_go_step_success hs 0 2
      have e1 : wrapper_go f 2 1 1 = ([1, 2], 2, SendResult.ok r) := by
        simpa [e2, BACKOFF_MULTIPLIER] using wrapper_go_step_retry h1 1 1
      have e0 : wrapper_go f 3 1 0 = ([1, 2], 3, SendResult.ok r) := by
        simpa [e1] using wrapper_go_step_retry h0 2 1
      exact e0

/-- Witness for `retry_schedule`: on a transport that always fails at
network level, exactly 3 attempts and sleeps `[1, 2]` before raising
`MaxRetriesException`; on one that succeeds on the third attempt, 3
attempts with the same sleeps and the 200 response returned. -/
theorem retry_schedule_witness :
    wrapper_func fAllUrlErr = ([1, 2], 3, .maxRetries) ∧
    wrapper_func fThirdOk = ([1, 2], 3, .ok 200) := by
  constructor
  · exact ((retry_schedule fAllUrlErr).1 (fun n hn => by simp [fAllUrlErr, retryable])).1
  · exact (retry_schedule fThirdOk).2 3 200 (by decide) (by decide)
      (fun n hn => by
        have hn' : n < 2 := hn
        interval_cases n <;> simp [fThirdOk, retryable])
      (by simp [fThirdOk])

/-- C4: classification of HTTP failures by `wrapper_func`, at any attempt
position `n+1 ≤ MAX_RETRIES` whose preceding attempts were all retryable:
a 4xx code other than 429 raises `BadRequestException` at once (no further
attempt, no further sleep); 429 raises `ThrottlingException` at once; a
returned (2xx) response is returned as success; 5xx codes and `URLError`
are classified retryable. -/
theorem http_failure_classification {Resp : Type} (f : Nat → Outcome Resp)
    (n c : Nat) (r : Resp) (hn : n < MAX_RETRIES)
    (hpre : ∀ m, m < n → retryable (f m)) :
    (f n = .httpError c → 400 ≤ c → c < 500 → c ≠ 429 →
      wrapper_func f = (backoffSeq n, n + 1, .badRequest)) ∧
    (f n = .httpError 429 →
      wrapper_func f = (backoffSeq n, n + 1, .throttling)) ∧
    (f n = .success r → wrapper_func f = (backoffSeq n, n + 1, .ok r)) ∧
    (∀ code, 500 ≤ code → retryable (.httpError code : Outcome Resp)) ∧
    retryable (.urlError : Outcome Resp) := by
  have hn' : n < 3 := hn
  have hretry5 : ∀ code, 500 ≤ code → retryable (.httpError code : Outcome Resp) := by
    intro code h5
    simp only [retryable]
    omega
  have hretryU : retryable (.urlError : Outcome Resp) := trivial
  interval_cases n
  · refine ⟨?_, ?_, ?_, hretry5, hretryU⟩
    · intro hf h4 h5 h9
      exact (by simpa using wrapper_go_step_fatal hf h4 h5 h9 2 1 :
        wrapper_go f 3 1 0 = ([], 1, .badRequest))
    · intro hf
      exact (by simpa using wrapper_go_step_throttle hf 2 1 :
        wrapper_go f 3 1 0 = ([], 1, .throttling))
    · intro hf
      exact (by simpa using wrapper_go_step_success hf 2 1 :
        wrapper_go f 3 1 0 = ([], 1, .ok r))
  · have h0 := hpre 0 (by decide)
    refine ⟨?_, ?_, ?_, hretry5, hretryU⟩
    · intro hf h4 h5 h9
      have e1 : wrapper_go f 2 1 1 = ([1], 1, (SendResult.badRequest : SendResult Resp)) := by
        simpa using wrapper_go_step_fatal hf h4 h5 h9 1 1
      exact (by simpa [e1] using wrapper_go_step_retry h0 2 1 :
        wrapper_go f 3 1 0 = ([1], 2, .badRequest))
    · intro hf
      have e1 : wrapper_go f 2 1 1 = ([1], 1, (SendResult.throttling : SendResult Resp)) := by
        simpa using wrapper_go_step_throttle hf 1 1
      exact (by simpa [e1] using wrapper_go_step_retry h0 2 1 :
        wrapper_go f 3 1 0 = ([1], 2, .throttling))
    · intro hf
      have e1 : wrapper_go f 2 1 1 = ([1], 1, SendResult.ok r) := by
        simpa using wrapper_go_step_success hf 1 1
      exact (by simpa [e1] using wrapper_go_step_retry h0 2 1 :
        wrapper_go f 3 1 0 = ([1], 2, .ok r))
  · have h0 := hpre 0 (by decide)
    have h1 := hpre 1 (by decide)
    refine ⟨?_, ?_, ?_, hretry5, hretryU⟩
    · intro hf h4 h5 h9
      have e2 : wrapper_go f 1 2 2 = ([2], 1, (SendResult.badRequest : SendResult Resp)) := by
        simpa using wrapper_go_step_fatal hf h4 h5 h9 0 2
      have e1 : wrapper_go f 2 1 1 = ([1, 2], 2, (SendResult.badRequest : SendResult Resp)) := by
        simpa [e2, BACKOFF_MULTIPLIER] using wrapper_go_step_retry h1 1 1
      exact (by simpa [e1] using wrapper_go_step_retry h0 2 1 :
        wrapper_go f 3 1 0 = ([1, 2], 3, .badRequest))
    · intro hf
      have e2 : wrapper_go f 1 2 2 = ([2], 1, (SendResult.throttling : SendResult Resp)) := by
        simpa using wrapper_go_step_throttle hf 0 2
      have e1 : wrapper_go f 2 1 1 = ([1, 2], 2, (SendResult.throttling : SendResult Resp)) := by
        simpa [e2, BACKOFF_MULTIPLIER] using wrapper_go_step_retry h1 1 1
      exact (by simpa [e1] using wrapper_go_step_retry h0 2 1 :
        wrapper_go f 3 1 0 = ([1, 2], 3, .throttling))
    · intro hf
      have e2 : wrapper_go f 1 2 2 = ([2], 1, SendResult.ok r) := by
        simpa using wrapper_go_step_success hf 0 2
      have e1 : wrapper_go f 2 1 1 = ([1, 2], 2, SendResult.ok r) := by
        simpa [e2, BACKOFF_MULTIPLIER] using wrapper_go_step_retry h1 1 1
      exact (by simpa [e1] using wrapper_go_step_retry h0 2 1 :
        wrapper_go f 3 1 0 = ([1, 2], 3, .ok r))

/-- Witness for `http_failure_classification`: a 503 on the first attempt
is retried after 1 second, and the 403 on the second attempt raises
`BadRequestException` with 2 attempts and the single sleep `[1]`; a 429 on
the first attempt raises `ThrottlingException` with one attempt and no
sleep. -/
theorem http_failure_classification_witness :
    wrapper_func fThen403 = ([1], 2, .badRequest) ∧
    wrapper_func fFirst429 = ([], 1, .throttling) := by
  constructor
  · exact (http_failure_classification fThen403 1 403 0 (by decide)
      (fun m hm => by
        have hm' : m < 1 := hm
        interval_cases m
        simp [fThen403, retryable])).1 (by simp [fThen403]) (by decide) (by decide)
      (by decide)
  · exact (http_failure_classification fFirst429 0 429 0 (by decide)
      (fun m hm => absurd hm (by omega))).2.1 rfl

/-! ## Helper lemmas about payload splitting -/

/-- Unfolding `_generate_payloads` one step on an oversized envelope whose
entry is parsed JSON with a `logEvents` list: the list is halved and the
two halves are processed left to right. -/
theorem generate_step_oversized_parsed {Ctx Ev R P : Type}
    (ser : Data Ctx Ev R → P) (plen : P → Nat) (fuel : Nat) (c : Ctx)
    (e : Entry Ev R)
    (h : ¬ plen (ser { context := c, entry := .parsed e }) < MAX_PAYLOAD_SIZE) :
    _generate_payloads ser plen (fuel + 1) { context := c, entry := .parsed e } =
      match _generate_payloads ser plen fuel
          { context := c,
            entry := .parsed ⟨e.logEvents.take (e.logEvents.length / 2), e.rest⟩ } with
      | none => none
      | some (.error er) => some (.error er)
      | some (.ok ps1) =>
        match _generate_payloads ser plen fuel
            { context := c,
              entry := .parsed ⟨e.logEvents.drop (e.logEvents.length / 2), e.rest⟩ } with
        | none => none
        | some (.error er) => some (.error er)
        | some (.ok ps2) => some (.ok (ps1 ++ ps2)) := by
  simp only [_generate_payloads, if_neg h, _split, _reconstruct_data]

/-- C8: an envelope whose compressed serialization is already strictly
below `MAX_PAYLOAD_SIZE` yields exactly one payload, byte-identical to the
direct serialization `ser d`. -/
theorem generate_payloads_small {Ctx Ev R P : Type} (ser : Data Ctx Ev R → P)
    (plen : P → Nat) (d : Data Ctx Ev R) (fuel : Nat)
    (h : plen (ser d) < MAX_PAYLOAD_SIZE) :
    _generate_payloads ser plen (fuel + 1) d = some (.ok [ser d]) := by
  simp [_generate_payloads, h]

/-- Witness for `generate_payloads_small`: a one-event envelope of
compressed size 700010 < 1024000 yields exactly its own serialization. -/
theorem generate_payloads_small_witness :
    _generate_payloads sizeEx id 1 dOneEv = some (.ok [sizeEx dOneEv]) :=
  generate_payloads_small sizeEx id dOneEv 0 (by decide)

/-- C3: whenever `_generate_payloads` finishes with a list of payloads, the
concatenation, in output order, of the `logEvents` carried by the payloads
equals the original `logEvents` list — no reordering, duplication or loss
(the in-place mutation of the shared `entry` dict by `_reconstruct_data`
is threaded in evaluation order by `_split`).  Payloads are represented by
the sub-envelopes they serialize (`ser = id`); `plen` is the compressed
size oracle. -/
theorem generate_payloads_preserve_events {Ctx Ev R : Type}
    (plen : Data Ctx Ev R → Nat) :
    ∀ (fuel : Nat) (d : Data Ctx Ev R) (ds : List (Data Ctx Ev R)),
      _generate_payloads id plen fuel d = some (.ok ds) →
      (ds.map dataEvents).flatten = dataEvents d := by
  intro fuel
  induction fuel with
  | zero =>
    intro d ds h
    exact absurd h (by simp [_generate_payloads])
  | succ n ih =>
    intro d ds h
    by_cases hfit : plen (id d) < MAX_PAYLOAD_SIZE
    · simp only [_generate_payloads, if_pos hfit] at h
      obtain rfl : [d] = ds := by simpa using h
      simp
    · obtain ⟨c, entry⟩ := d
      cases entry with
      | invalid s =>
        simp only [_generate_payloads, if_neg hfit, _split] at h
        exact absurd h (by simp)
      | objNoEvents rst =>
        simp only [_generate_payloads, if_neg hfit, _split] at h
        exact absurd h (by simp)
      | parsed e =>
        rw [generate_step_oversized_parsed id plen n c e hfit] at h
        rcases h1 : _generate_payloads id plen n
            { context := c,
              entry := .parsed ⟨e.logEvents.take (e.logEvents.length / 2), e.rest⟩ } with
          _ | er1
        · rw [h1] at h; exact absurd h (by simp)
        rcases er1 with er1 | ps1
        · rw [h1] at h; exact absurd h (by simp)
        rcases h2 : _generate_payloads id plen n
            { context := c,
              entry := .parsed ⟨e.logEvents.drop (e.logEvents.length / 2), e.rest⟩ } with
          _ | er2
        · rw [h1, h2] at h; exact absurd h (by simp)
        rcases er2 with er2 | ps2
        · rw [h1, h2] at h; exact absurd h (by simp)
        rw [h1, h2] at h
        obtain rfl : ps1 ++ ps2 = ds := by simpa using h
        have ih1 := ih _ _ h1
        have ih2 := ih _ _ h2
        simp only [List.map_append, List.flatten_append, ih1, ih2]
        simp [dataEvents, List.take_append_drop]

/-- Witness for `generate_payloads_preserve_events`: the two-event
envelope splits into two one-event payloads whose concatenated events are
the original `[1, 2]`. -/
theorem generate_payloads_preserve_events_witness :
    (([{ context := 0, entry := .parsed ⟨[1], 0⟩ },
       { context := 0, entry := .parsed ⟨[2], 0⟩ }] : List (Data Nat Nat Nat)).map
        dataEvents).flatten = dataEvents dTwoEv :=
  generate_payloads_preserve_events sizeEx 3 dTwoEv
    [{ context := 0, entry := .parsed ⟨[1], 0⟩ },
     { context := 0, entry := .parsed ⟨[2], 0⟩ }] rfl

/-- C1 (amended): for an envelope whose entry parses as JSON with a
`logEvents` list, the recursive splitting terminates with every produced
payload strictly below `MAX_PAYLOAD_SIZE` — *provided* every sub-envelope
carrying at most one of the events (with the same context and remaining
entry fields) serializes below the limit.  Fuel exceeding the event count
suffices, so the recursion depth is bounded and no payload at or above the
limit is ever emitted. -/
theorem generate_payloads_split_terminates {Ctx Ev R P : Type}
    (ser : Data Ctx Ev R → P) (plen : P → Nat) (c : Ctx) (rest : R)
    (H : ∀ evs : List Ev, evs.length ≤ 1 →
      plen (ser { context := c, entry := .parsed ⟨evs, rest⟩ }) < MAX_PAYLOAD_SIZE) :
    ∀ (fuel : Nat) (evs : List Ev), evs.length < fuel →
      ∃ ps : List P,
        _generate_payloads ser plen fuel
            { context := c, entry := .parsed ⟨evs, rest⟩ } = some (.ok ps) ∧
          ∀ p ∈ ps, plen p < MAX_PAYLOAD_SIZE := by
  intro fuel
  induction fuel with
  | zero => intro evs h; omega
  | succ n ih =>
    intro evs hlen
    by_cases hfit :
      plen (ser { context := c, entry := .parsed ⟨evs, rest⟩ }) < MAX_PAYLOAD_SIZE
    · refine ⟨[ser { context := c, entry := .parsed ⟨evs, rest⟩ }],
        by simp [_generate_payloads, hfit], ?_⟩
      intro p hp
      obtain rfl : p = ser { context := c, entry := .parsed ⟨evs, rest⟩ } := by
        simpa using hp
      exact hfit
    · have hlen2 : 2 ≤ evs.length := by
        by_contra hcon
        exact hfit (H evs (by omega))
      obtain ⟨ps1, e1, b1⟩ := ih (evs.take (evs.length / 2))
        (by simp only [List.length_take]; omega)
      obtain ⟨ps2, e2, b2⟩ := ih (evs.drop (evs.length / 2))
        (by simp only [List.length_drop]; omega)
      refine ⟨ps1 ++ ps2, ?_, ?_⟩
      · rw [generate_step_oversized_parsed ser plen n c ⟨evs, rest⟩ hfit]
        simp only [e1, e2]
      · intro p hp
        rcases List.mem_append.1 hp with hp | hp
        · exact b1 p hp
        · exact b2 p hp

/-- Witness for `generate_payloads_split_terminates`: under `sizeEx` each
one-event sub-envelope fits, so the oversized two-event envelope is split
into payloads all strictly below the limit. -/
theorem generate_payloads_split_terminates_witness :
    ∃ ps : List Nat,
      _generate_payloads sizeEx id 3 dTwoEv = some (.ok ps) ∧
        ∀ p ∈ ps, id p < MAX_PAYLOAD_SIZE :=
  generate_payloads_split_terminates sizeEx id 0 0
    (fun evs h => by simp only [id_eq, sizeEx, MAX_PAYLOAD_SIZE]; omega)
    3 [1, 2] (by decide)

/-- Counterexample to C1 as stated: when a single `logEvents` element
alone still serializes at or above `MAX_PAYLOAD_SIZE`, `_split` returns
the envelope itself as its own second half (`half = 0`), so
`_generate_payloads` recurses on an identical input forever: for every
fuel the run is unfinished — no payload list is ever produced and no
fatal error is ever raised. -/
theorem singleton_oversized_diverges :
    divergesOn sizeBig id dOneEv ∧ MAX_PAYLOAD_SIZE ≤ sizeBig dOneEv ∧
      dataEvents dOneEv = [1] := by
  refine ⟨?_, by decide, rfl⟩
  intro fuel
  induction fuel with
  | zero => rfl
  | succ n ih =>
    cases n with
    | zero => rfl
    | succ m =>
      have hfit : ¬ id (sizeBig dOneEv) < MAX_PAYLOAD_SIZE := by decide
      have hEmpty : _generate_payloads sizeBig id (m + 1)
          { context := 0, entry := .parsed ⟨([] : List Nat), 0⟩ } =
            some (.ok [10]) := by
        simp [_generate_payloads, sizeBig, MAX_PAYLOAD_SIZE]
      have step := generate_step_oversized_parsed sizeBig id (m + 1) 0
        (⟨[1], 0⟩ : Entry Nat Nat) hfit
      rw [show dOneEv = { context := 0, entry := .parsed ⟨[1], 0⟩ } from rfl] at ih ⊢
      rw [step]
      simp only [show ([1] : List Nat).take (([1] : List Nat).length / 2) = [] from rfl,
        show ([1] : List Nat).drop (([1] : List Nat).length / 2) = [1] from rfl]
      rw [hEmpty, ih]

/-- C5 (amended): when splitting is forced (compressed size at or above
`MAX_PAYLOAD_SIZE`) but the entry does not parse as JSON with a
`logEvents` list, `_split` raises `json.JSONDecodeError` (non-JSON entry)
or `KeyError` (no `logEvents` key).  Neither is of the BadRequest family:
the exception escapes `_send_log_entry` uncaught, before any payload is
handed to the transport, aborting the whole record. -/
theorem unparseable_entry_escapes {Ctx Ev R P Resp : Type}
    (ser : Data Ctx Ev R → P) (plen : P → Nat) (send : P → SendResult Resp)
    (fuel : Nat) (d : Data Ctx Ev R)
    (hsize : MAX_PAYLOAD_SIZE ≤ plen (ser d)) :
    (∀ s, d.entry = .invalid s →
      _send_log_entry ser plen send (fuel + 1) d = some (.error .jsonDecodeError)) ∧
    (∀ rst, d.entry = .objNoEvents rst →
      _send_log_entry ser plen send (fuel + 1) d = some (.error .keyError)) := by
  have hfit : ¬ plen (ser d) < MAX_PAYLOAD_SIZE := by omega
  constructor
  · intro s hs
    obtain ⟨c, entry⟩ := d
    simp only at hs
    subst hs
    simp [_send_log_entry, _generate_payloads, _split, hfit]
  · intro rst hr
    obtain ⟨c, entry⟩ := d
    simp only at hr
    subst hr
    simp [_send_log_entry, _generate_payloads, _split, hfit]

/-- Witness for `unparseable_entry_escapes`: a concrete oversized
envelope with a non-JSON entry makes the dispatcher return the escaped
`JSONDecodeError`, and one whose entry lacks `logEvents` the escaped
`KeyError`. -/
theorem unparseable_entry_escapes_witness :
    _send_log_entry sizeHuge id sendOk 5 dRawEv = some (.error .jsonDecodeError) ∧
    _send_log_entry sizeHuge id sendOk 5 dNoEv = some (.error .keyError) :=
  ⟨(unparseable_entry_escapes sizeHuge id sendOk 4 dRawEv (by decide)).1
      "plain text line" rfl,
    (unparseable_entry_escapes sizeHuge id sendOk 4 dNoEv (by decide)).2 7 rfl⟩

/-- Counterexample to C5 as stated: at this concrete oversized envelope
with an unparseable entry, the pipeline result is an escaped unclassified
`JSONDecodeError` — not a reported BadRequest-family error that drops only
the affected payload: nothing is sent and the exception leaves
`_send_log_entry`. -/
theorem unparseable_entry_escape_example :
    _send_log_entry sizeHuge id sendOk 5 dRawEv = some (.error .jsonDecodeError) ∧
    MAX_PAYLOAD_SIZE ≤ sizeHuge dRawEv ∧
    ¬ completedNormally (_send_log_entry sizeHuge id sendOk 5 dRawEv) := by
  refine ⟨rfl, by decide, ?_⟩
  intro h
  exact h

/-- C6: the dispatcher is partial-failure tolerant for bad requests and
aborts on retry exhaustion: a payload whose transport run ends in
`BadRequestException` is caught and reported by `_send_payload` and the
loop in `_send_log_entry` continues with the remaining sibling payloads,
while a payload whose run ends in `MaxRetriesException` re-raises it,
aborting the remaining payloads of the current record. -/
theorem dispatcher_partial_failure {P Resp : Type} (send : P → SendResult Resp)
    (p : P) (ps : List P) :
    (send p = .badRequest →
      sendPayloads send (p :: ps) =
        (sendPayloads send ps).map (fun os => .droppedBadRequest :: os)) ∧
    (send p = .maxRetries →
      sendPayloads send (p :: ps) = .error .maxRetriesException) := by
  constructor
  · intro h
    simp only [sendPayloads, _send_payload, h]
    cases sendPayloads send ps <;> simp [Except.map]
  · intro h
    simp [sendPayloads, _send_payload, h]

/-- Witness for `dispatcher_partial_failure`: with payload `1` rejected as
a bad request, the sibling payload `2` is still processed; with a transport
that exhausts its retries, the remaining payloads are aborted. -/
theorem dispatcher_partial_failure_witness :
    sendPayloads sendBad1 [1, 2] =
      (sendPayloads sendBad1 [2]).map (fun os => .droppedBadRequest :: os) ∧
    sendPayloads sendExhaust [1, 2] = .error .maxRetriesException :=
  ⟨(dispatcher_partial_failure sendBad1 1 [2]).1 rfl,
    (dispatcher_partial_failure sendExhaust 1 [2]).2 rfl⟩

/-- C7: `_get_entry_type` is total on strings and classifies exactly by
substring containment: the VPC flow-logs marker wins first, then the
combination of the Lambda log-group marker and the `NR_LAMBDA_MONITORING`
marker, and everything else falls through to `OTHER`. -/
theorem entry_type_classification (s : String) :
    (_get_entry_type s = .vpc ↔ s.containsSubstr VPC_MARKER.toSubstring = true) ∧
    (_get_entry_type s = .lambda ↔
      (s.containsSubstr VPC_MARKER.toSubstring = false ∧
        s.containsSubstr LAMBDA_GROUP_MARKER.toSubstring = true ∧
        s.containsSubstr NR_MONITORING_MARKER.toSubstring = true)) ∧
    (_get_entry_type s = .other ↔
      (s.containsSubstr VPC_MARKER.toSubstring = false ∧
        (s.containsSubstr LAMBDA_GROUP_MARKER.toSubstring = false ∨
          s.containsSubstr NR_MONITORING_MARKER.toSubstring = false))) := by
  cases h1 : s.containsSubstr VPC_MARKER.toSubstring <;>
    cases h2 : s.containsSubstr LAMBDA_GROUP_MARKER.toSubstring <;>
      cases h3 : s.containsSubstr NR_MONITORING_MARKER.toSubstring <;>
        simp [_get_entry_type, h1, h2, h3]

/-- C9 evidence: the `X-License-Key` header attached by `do_request` is the
hard-coded string literal of `_get_license_key`, not the configured
credential — here the environment carries a different `LICENSE_KEY`, yet
the header still holds the hard-coded value. -/
theorem license_key_header_hardcoded :
    (do_request envConfigured .other (0 : Nat)).headers =
      [("X-License-Key", "f7462ab48bc1fee992a5ab87c707a21b6b1ab893"),
        ("Content-Encoding", "gzip")] ∧
    envConfigured.LICENSE_KEY = some "configured-account-license-key" ∧
    "f7462ab48bc1fee992a5ab87c707a21b6b1ab893" ≠ "configured-account-license-key" := by
  exact ⟨rfl, rfl, by decide⟩

/-- C10: a trigger event without an `awslogs` key whose `Records` value is
the empty list makes `_get_log_type` raise `IndexError` (from
`event['Records'][0]`), and hence `lambda_handler` raises instead of
reaching the `'Not supported'` branch. -/
theorem empty_records_raises (event : TriggerEvent)
    (h1 : event.awslogs = false)
    (h2 : event.records = some ([] : List S3Record)) :
    _get_log_type event = .error .indexError ∧
    lambda_handler event = .error .indexError := by
  obtain ⟨a, rcds⟩ := event
  simp only at h1 h2
  subst h1
  subst h2
  exact ⟨rfl, rfl⟩

/-- Witness for `empty_records_raises` at the concrete event
`{'Records': []}`. -/
theorem empty_records_raises_witness :
    _get_log_type evEmptyRecords = .error .indexError ∧
    lambda_handler evEmptyRecords = .error .indexError :=
  empty_records_raises evEmptyRecords rfl rfl

end AwsLogIngestion
